import Mathlib

/-!
Verification development for the Instagram follow-automation service
(`server.js`).  The definitions below are a shallow embedding of the
process-wide stores (session, cooldown, account health), the retry
controller `automateFollow`, the follow state machine `followUser`, the
two-factor detection predicate of `loginToInstagram`, and the
`/account-health` endpoint handler.  Timestamps are modelled as
milliseconds (`Nat`), page observations as explicit records, and the
outcome of each orchestration attempt as data supplied to the retry loop.
-/

namespace IG

/-- `MAX_RETRIES` from server.js line 19. -/
def MAX_RETRIES : Nat := 3

/-- `BASE_DELAY_MS` from server.js line 20. -/
def BASE_DELAY_MS : Nat := 2000

/-- `SESSION_DURATION_MS` (24 hours) from server.js line 40. -/
def SESSION_DURATION_MS : Nat := 24 * 60 * 60 * 1000

/-- `MIN_COOLDOWN_MS` from server.js line 48. -/
def MIN_COOLDOWN_MS : Nat := 30000

/-- `MAX_COOLDOWN_MS` from server.js line 49. -/
def MAX_COOLDOWN_MS : Nat := 60000

/-- `getBackoffDelay` (server.js lines 82-84):
`BASE_DELAY_MS * Math.pow(2, attempt)`. -/
def getBackoffDelay (attempt : Nat) : Nat := BASE_DELAY_MS * 2 ^ attempt

/-- The session store record `{ cookies, createdAt, loginCount }`
(server.js lines 37-39 and 112-120). -/
structure Session where
  cookies : List (String × String)
  createdAt : Nat
  loginCount : Nat
  deriving DecidableEq

/-- `isSessionValid` (server.js lines 91-105), as a function of the current
store contents and the current clock; returns the boolean result together
with the store contents after the call (the original clears
`sessionStore` when the session is found expired). -/
def isSessionValid (store : Option Session) (now : Nat) : Bool × Option Session :=
  match store with
  | none => (false, none)
  | some s =>
    let sessionAge := now - s.createdAt
    let isExpired := sessionAge > SESSION_DURATION_MS
    if isExpired then (false, none)
    else (true, some s)

/-- The cooldown record `lastFollowAction` (server.js lines 44-47). -/
structure CooldownRec where
  timestamp : Nat
  username : Option String
  deriving DecidableEq

/-- The randomized cooldown draw of server.js line 151:
`Math.floor(Math.random() * (MAX_COOLDOWN_MS - MIN_COOLDOWN_MS + 1)) + MIN_COOLDOWN_MS`,
with `Math.random()` modelled as the rational `num / den` for `num < den`. -/
def requiredCooldown (num den : Nat) : Nat :=
  num * (MAX_COOLDOWN_MS - MIN_COOLDOWN_MS + 1) / den + MIN_COOLDOWN_MS

/-- `enforceCooldown` (server.js lines 140-162), as a function of the
current record, the current clock, the target username and the random
draw `num / den`.  Returns the record after the call together with the
number of milliseconds the caller was suspended; the final overwrite uses
the clock after the suspension (`Date.now()` at line 161). -/
def enforceCooldown (rec : CooldownRec) (now : Nat) (username : String)
    (num den : Nat) : CooldownRec × Nat :=
  if rec.timestamp = 0 then
    ({ timestamp := now, username := some username }, 0)
  else
    let timeSinceLastAction := now - rec.timestamp
    let required := requiredCooldown num den
    if timeSinceLastAction < required then
      let waitTime := required - timeSinceLastAction
      ({ timestamp := now + waitTime, username := some username }, waitTime)
    else
      ({ timestamp := now, username := some username }, 0)

/-- One entry of `accountHealth.warnings` (server.js lines 209-212);
the ISO timestamp string is modelled as the millisecond clock. -/
structure Warning where
  timestamp : Nat
  issues : List String
  deriving DecidableEq

/-- The `accountHealth` record (server.js lines 52-59). -/
structure AccountHealth where
  isHealthy : Bool
  lastCheckAt : Nat
  blockDetectedAt : Option Nat
  consecutiveErrors : Nat
  totalBlocks : Nat
  warnings : List Warning
  deriving DecidableEq

/-- The state update performed by `checkAccountHealth`
(server.js lines 203-230) given the list of detected issues of the
in-page classification and the current clock.  A non-empty issue list is
the `!healthCheck.isHealthy` branch; an empty one the healthy branch;
`lastCheckAt` is assigned on both paths (line 230). -/
def recordHealth (s : AccountHealth) (now : Nat) (detectedIssues : List String) :
    AccountHealth :=
  let s1 :=
    if !detectedIssues.isEmpty then
      let pushed := s.warnings ++ [{ timestamp := now, issues := detectedIssues }]
      let trimmed := if pushed.length > 10 then pushed.tail else pushed
      { s with
        isHealthy := false
        blockDetectedAt := some now
        totalBlocks := s.totalBlocks + 1
        consecutiveErrors := s.consecutiveErrors + 1
        warnings := trimmed }
    else
      { s with consecutiveErrors := 0, isHealthy := true }
  { s1 with lastCheckAt := now }

/-- Substring test on `List Char`, modelling JavaScript
`String.prototype.includes`. -/
def listContainsSub : List Char → List Char → Bool
  | pat, [] => pat.isEmpty
  | pat, c :: t => pat.isPrefixOf (c :: t) || listContainsSub pat t

/-- `s.includes(pat)` on strings. -/
def containsSub (s pat : String) : Bool := listContainsSub pat.data s.data

/-- JavaScript `toLowerCase()`, modelled as lowering every character. -/
def lowerStr (s : String) : String := String.mk (s.data.map Char.toLower)

/-- The two-factor detection predicate of `loginToInstagram`
(server.js lines 430-436): the lowercased body text is tested for the four
substrings. -/
def is2FAPresent (bodyText : String) : Bool :=
  containsSub (lowerStr bodyText) "security code" ||
    containsSub (lowerStr bodyText) "two-factor" ||
    containsSub (lowerStr bodyText) "authentication" ||
    containsSub (lowerStr bodyText) "verify"

/-- The tail of the fresh-login path of `loginToInstagram`
(server.js lines 429-452): after credentials are submitted, the attempt
throws `2FA_CHALLENGE_DETECTED` when `is2FAPresent` holds, then throws
`LOGIN_FAILED` when the post-login landmarks are absent, and otherwise
succeeds.  `bodyText` is the rendered page text, `loggedIn` the landmark
check of lines 443-448. -/
def loginAfterSubmit (bodyText : String) (loggedIn : Bool) : Except String Bool :=
  if is2FAPresent bodyText then Except.error "2FA_CHALLENGE_DETECTED"
  else if !loggedIn then Except.error "LOGIN_FAILED"
  else Except.ok true

/-- The `status` strings of the follow results (server.js lines 499-652). -/
inductive FStatus where
  | followed
  | alreadyfollowed
  | privateorpending
  | notfound
  | blocked
  | failed
  deriving DecidableEq

/-- The result object returned by `followUser`:
`{ status, message, healthIssues }` with `healthIssues` empty when the
property is absent. -/
structure FollowResult where
  status : FStatus
  message : String
  healthIssues : List String
  deriving DecidableEq

/-- The follow/following button inspection result
(server.js lines 533-577). -/
structure ButtonInfo where
  found : Bool
  isFollowing : Bool
  isPending : Bool
  canFollow : Bool
  deriving DecidableEq

/-- The page observations consumed by one run of `followUser`:
the issue lists of the two health classifications, the not-found and
blocked-by-user text checks, the button inspection, and the post-click
button state (server.js lines 497-652). -/
structure PageObs where
  healthIssuesBefore : List String
  pageNotFound : Bool
  isBlocked : Bool
  buttonInfo : ButtonInfo
  newButtonSuccess : Bool
  newIsPrivate : Bool
  newIsFollowing : Bool
  healthIssuesAfter : List String
  deriving DecidableEq

/-- `followUser` (server.js lines 486-657) as a function of the page
observations. -/
def followUser (p : PageObs) : FollowResult :=
  if !p.healthIssuesBefore.isEmpty then
    { status := FStatus.failed
      message := "Account blocked by Instagram: " ++ String.intercalate ", " p.healthIssuesBefore
      healthIssues := p.healthIssuesBefore }
  else if p.pageNotFound then
    { status := FStatus.notfound, message := "Profile does not exist", healthIssues := [] }
  else if p.isBlocked then
    { status := FStatus.blocked
      message := "Blocked by user or user not accessible", healthIssues := [] }
  else if !p.buttonInfo.found then
    { status := FStatus.failed
      message := "Could not locate follow button (possible UI change)", healthIssues := [] }
  else if p.buttonInfo.isFollowing then
    { status := FStatus.alreadyfollowed
      message := "Already following this user", healthIssues := [] }
  else if p.buttonInfo.isPending then
    { status := FStatus.privateorpending
      message := "Follow request already pending (private account)", healthIssues := [] }
  else if p.buttonInfo.canFollow then
    if p.newButtonSuccess then
      if !p.healthIssuesAfter.isEmpty then
        { status := FStatus.failed
          message := "Follow action triggered Instagram block: " ++ String.intercalate ", " p.healthIssuesAfter
          healthIssues := p.healthIssuesAfter }
      else if p.newIsPrivate then
        { status := FStatus.privateorpending
          message := "Follow request sent (private account)", healthIssues := [] }
      else if p.newIsFollowing then
        { status := FStatus.followed
          message := "Successfully followed user", healthIssues := [] }
      else
        { status := FStatus.failed
          message := "Follow action did not complete as expected", healthIssues := [] }
    else
      { status := FStatus.failed
        message := "Follow action did not complete as expected", healthIssues := [] }
  else
    { status := FStatus.failed, message := "Unknown button state", healthIssues := [] }

/-- What one orchestration attempt of `automateFollow` does:
`body` is the outcome of launch + login + `followUser` inside the `try`
block, where `Except.error msg` models a thrown error (errors are
modelled as thrown after the browser context exists); `closeErr` states
whether the `await browser.close()` on the success path (line 690) throws,
and with what message. -/
structure AttemptBehavior where
  body : Except String FollowResult
  closeErr : Option String

/-- The effective outcome of one attempt: when the body succeeds but the
success-path `browser.close()` throws, control jumps into the `catch`
block with the close error (the second close there is suppressed by
`.catch(() => {})`, line 717); when the body throws, the suppressed close
in the `catch` block cannot alter the error. -/
def attemptResult (b : AttemptBehavior) : Except String FollowResult :=
  match b.body with
  | Except.error e => Except.error e
  | Except.ok r =>
    match b.closeErr with
    | some ce => Except.error ce
    | none => Except.ok r

/-- The partial health snapshot embedded in responses
(server.js lines 705-709 and 739-743). -/
structure HealthSnap where
  isHealthy : Bool
  totalBlocks : Nat
  consecutiveErrors : Nat
  deriving DecidableEq

/-- The response of `automateFollow` (the wall-clock `timestamp` field is
omitted from the model). -/
structure Response where
  success : Bool
  status : FStatus
  errorDetails : Option String
  healthWarning : Option (List String)
  accountHealth : Option HealthSnap
  deriving DecidableEq

/-- The response built from a `followUser` result
(server.js lines 695-710): `success` is true exactly for the
followed / alreadyfollowed / privateorpending statuses, and health data
is attached when `result.healthIssues` is non-empty. -/
def buildResponse (h : AccountHealth) (r : FollowResult) : Response :=
  let base : Response :=
    { success :=
        match r.status with
        | FStatus.followed | FStatus.alreadyfollowed | FStatus.privateorpending => true
        | _ => false
      status := r.status
      errorDetails := if r.message = "" then none else some r.message
      healthWarning := none
      accountHealth := none }
  if !r.healthIssues.isEmpty then
    { base with
      healthWarning := some r.healthIssues
      accountHealth := some
        { isHealthy := h.isHealthy
          totalBlocks := h.totalBlocks
          consecutiveErrors := h.consecutiveErrors } }
  else base

/-- The immediate response to a two-factor challenge
(server.js lines 723-730). -/
def twoFAResponse : Response :=
  { success := false
    status := FStatus.failed
    errorDetails := some "Two-factor authentication required - manual login needed"
    healthWarning := none
    accountHealth := none }

/-- The response returned when the last attempt throws
(server.js lines 733-745): `error.message || 'Maximum retries exceeded'`
plus the current health snapshot. -/
def exhaustedResponse (h : AccountHealth) (e : String) : Response :=
  { success := false
    status := FStatus.failed
    errorDetails := some (if e = "" then "Maximum retries exceeded" else e)
    healthWarning := none
    accountHealth := some
      { isHealthy := h.isHealthy
        totalBlocks := h.totalBlocks
        consecutiveErrors := h.consecutiveErrors } }

/-- The unreachable fallback response after the loop
(server.js lines 755-760). -/
def fallbackResponse : Response :=
  { success := false
    status := FStatus.failed
    errorDetails := some "Unexpected error in retry logic"
    healthWarning := none
    accountHealth := none }

/-- Observable events of one `automateFollow` run: the single
`enforceCooldown` call, the start of each 0-indexed attempt, each call of
`browser.close()`, and each backoff sleep with its duration. -/
inductive Event where
  | cooldown
  | attemptStart (i : Nat)
  | browserClose
  | sleep (ms : Nat)
  deriving DecidableEq

/-- The events of a single iteration of the retry loop with behavior `b`
at index `i`: the attempt starts; on a successful body the success-path
close runs (twice when it throws, because the `catch` block closes
again); on a thrown body the `catch` block closes once. -/
def iterEvents (b : AttemptBehavior) (i : Nat) : List Event :=
  Event.attemptStart i ::
    (match b.body with
     | Except.ok _ =>
       match b.closeErr with
       | none => [Event.browserClose]
       | some _ => [Event.browserClose, Event.browserClose]
     | Except.error _ => [Event.browserClose])

/-- The `for` loop of `automateFollow` (server.js lines 673-752):
`n` is the number of remaining iterations, `i` the current value of
`attempt`.  A returned result ends the loop; a thrown
`2FA_CHALLENGE_DETECTED` returns immediately; the last attempt returns
the exhaustion response; otherwise the loop sleeps `getBackoffDelay i`
and retries. -/
def followLoopAux (h : AccountHealth) (att : Nat → AttemptBehavior) :
    Nat → Nat → Response × List Event
  | 0, _ => (fallbackResponse, [])
  | n + 1, i =>
    let ev := iterEvents (att i) i
    match attemptResult (att i) with
    | Except.ok r => (buildResponse h r, ev)
    | Except.error e =>
      if e = "2FA_CHALLENGE_DETECTED" then (twoFAResponse, ev)
      else if i = MAX_RETRIES - 1 then (exhaustedResponse h e, ev)
      else
        let rest := followLoopAux h att n (i + 1)
        (rest.1, ev ++ Event.sleep (getBackoffDelay i) :: rest.2)

/-- `automateFollow` (server.js lines 666-761): enforce the cooldown once,
then run the retry loop with `attempt` from 0 below `MAX_RETRIES`.
`h` is the account-health store read when building responses; `att` gives
the behavior of each attempt. -/
def automateFollow (h : AccountHealth) (att : Nat → AttemptBehavior) :
    Response × List Event :=
  let r := followLoopAux h att MAX_RETRIES 0
  (r.1, Event.cooldown :: r.2)

/-- Number of `attemptStart` events in a trace. -/
def countAttempts (tr : List Event) : Nat :=
  tr.countP fun ev => match ev with | Event.attemptStart _ => true | _ => false

/-- Number of `sleep` events in a trace. -/
def countSleeps (tr : List Event) : Nat :=
  tr.countP fun ev => match ev with | Event.sleep _ => true | _ => false

/-- Number of `cooldown` events in a trace. -/
def countCooldowns (tr : List Event) : Nat :=
  tr.countP fun ev => match ev with | Event.cooldown => true | _ => false

/-- The `accountHealth` projection served by `GET /account-health`
(server.js lines 824-831); `recentWarnings` is `warnings.slice(-5)`. -/
structure HealthReport where
  isHealthy : Bool
  lastCheckAt : Nat
  blockDetectedAt : Option Nat
  consecutiveErrors : Nat
  totalBlocks : Nat
  recentWarnings : List Warning
  deriving DecidableEq

/-- The `session` projection (server.js lines 832-837). -/
structure SessionReport where
  isActive : Bool
  ageMinutes : Option Nat
  expiresInMinutes : Option Int
  loginCount : Nat
  deriving DecidableEq

/-- The `cooldown` projection (server.js lines 838-842). -/
structure CooldownReport where
  lastActionAt : Option Nat
  lastActionUsername : Option String
  secondsSinceLastAction : Option Nat
  deriving DecidableEq

/-- The full `GET /account-health` payload (timestamps kept in
milliseconds). -/
structure FullReport where
  accountHealth : HealthReport
  session : SessionReport
  cooldown : CooldownReport
  deriving DecidableEq

/-- The `GET /account-health` handler (server.js lines 819-845) as a
function of the three stores and the clock.  The handler contains no
assignment to any store, so the model returns the three stores it was
given alongside the payload; `expiresInMinutes` uses floor division as
`Math.floor` does (it is negative for an expired stored session). -/
def accountHealthHandler (h : AccountHealth) (store : Option Session)
    (cool : CooldownRec) (now : Nat) :
    FullReport × AccountHealth × Option Session × CooldownRec :=
  let report : FullReport :=
    { accountHealth :=
        { isHealthy := h.isHealthy
          lastCheckAt := h.lastCheckAt
          blockDetectedAt := h.blockDetectedAt
          consecutiveErrors := h.consecutiveErrors
          totalBlocks := h.totalBlocks
          recentWarnings := h.warnings.drop (h.warnings.length - 5) }
      session :=
        { isActive := store.isSome
          ageMinutes := store.map fun s => (now - s.createdAt) / 1000 / 60
          expiresInMinutes := store.map fun s =>
            Int.fdiv ((SESSION_DURATION_MS : Int) - ((now : Int) - (s.createdAt : Int))) (1000 * 60)
          loginCount := match store with | some s => s.loginCount | none => 0 }
      cooldown :=
        { lastActionAt := if cool.timestamp > 0 then some cool.timestamp else none
          lastActionUsername := cool.username
          secondsSinceLastAction :=
            if cool.timestamp > 0 then some ((now - cool.timestamp) / 1000) else none } }
  (report, h, store, cool)

/-- A fresh, healthy account-health store (server.js lines 52-59 with the
startup clock taken as 0). -/
def h0 : AccountHealth :=
  { isHealthy := true, lastCheckAt := 0, blockDetectedAt := none
    consecutiveErrors := 0, totalBlocks := 0, warnings := [] }

/-- An attempt whose login renders page `body` (logged in afterwards) and
whose follow step would report a plain success; used to drive
`automateFollow` from a concrete login page. -/
def pageAttempt (body : String) : AttemptBehavior :=
  { body := (loginAfterSubmit body true).map fun _ =>
      { status := FStatus.followed, message := "Successfully followed user"
        healthIssues := ([] : List String) }
    closeErr := none }

/-- Conclusion of claim C1 for health `h`, attempt behaviors `att` and
per-attempt error messages `e`: when all three attempts throw non-fatal
errors, the operation returns `failed` with the last error message and
the current health snapshot, after exactly 3 attempts with two backoff
sleeps of `BASE_DELAY_MS × 1` and `BASE_DELAY_MS × 2` between them. -/
def retryExhaustionConcl (h : AccountHealth) (att : Nat → AttemptBehavior)
    (e : Nat → String) : Prop :=
  (automateFollow h att).1 =
      { success := false
        status := FStatus.failed
        errorDetails := some (e 2)
        healthWarning := none
        accountHealth := some
          { isHealthy := h.isHealthy
            totalBlocks := h.totalBlocks
            consecutiveErrors := h.consecutiveErrors } }
  ∧ (automateFollow h att).2 =
      Event.cooldown ::
        (iterEvents (att 0) 0 ++
          Event.sleep (BASE_DELAY_MS * 1) ::
            (iterEvents (att 1) 1 ++
              Event.sleep (BASE_DELAY_MS * 2) :: iterEvents (att 2) 2))
  ∧ countAttempts (automateFollow h att).2 = 3
  ∧ getBackoffDelay 0 = BASE_DELAY_MS * 1
  ∧ getBackoffDelay 1 = BASE_DELAY_MS * 2

/-- Attempts that all throw a generic timeout (witness data for C1). -/
def attThrow : Nat → AttemptBehavior :=
  fun _ => { body := Except.error "Timeout 30000ms exceeded", closeErr := none }

/-- The error messages thrown by `attThrow`. -/
def eThrow : Nat → String := fun _ => "Timeout 30000ms exceeded"

/-- Attempts that all throw the two-factor challenge error (witness data
for C2). -/
def att2fa : Nat → AttemptBehavior :=
  fun _ => { body := Except.error "2FA_CHALLENGE_DETECTED", closeErr := none }

/-- Page observations of a profile that does not exist (witness data for
C3). -/
def pNotFound : PageObs :=
  { healthIssuesBefore := [], pageNotFound := true, isBlocked := false
    buttonInfo := { found := true, isFollowing := false, isPending := false, canFollow := true }
    newButtonSuccess := true, newIsPrivate := false, newIsFollowing := true
    healthIssuesAfter := [] }

/-- Attempts that all determine the `pNotFound` outcome (witness data for
C3). -/
def attNF : Nat → AttemptBehavior :=
  fun _ => { body := Except.ok (followUser pNotFound), closeErr := none }

/-- Conclusion of the amended claim C5 for record `rec`, clock `now`,
target `username` and random draw `num / den`: the drawn interval lies in
`[MIN_COOLDOWN_MS, MAX_COOLDOWN_MS]` (both ends included), the caller is
suspended for `required - elapsed` when `elapsed < required`, the record
is unconditionally overwritten with the post-wait clock and the target,
the gap between the two consecutive record mutations is at least the
drawn interval, and the very first call ever records and returns with no
wait. -/
def cooldownConcl (rec : CooldownRec) (now : Nat) (username : String)
    (num den : Nat) : Prop :=
  MIN_COOLDOWN_MS ≤ requiredCooldown num den
  ∧ requiredCooldown num den ≤ MAX_COOLDOWN_MS
  ∧ (now - rec.timestamp < requiredCooldown num den →
      (enforceCooldown rec now username num den).2 =
        requiredCooldown num den - (now - rec.timestamp))
  ∧ (enforceCooldown rec now username num den).1 =
      { timestamp := now + (enforceCooldown rec now username num den).2
        username := some username }
  ∧ requiredCooldown num den ≤
      (enforceCooldown rec now username num den).1.timestamp - rec.timestamp
  ∧ (∀ m u, enforceCooldown { timestamp := 0, username := none } m u num den =
      ({ timestamp := m, username := some u }, 0))

/-- Conclusion of claim C7 for health store `s`, clock `now` and verdict
`issues`: `lastCheckAt` is always updated; an empty verdict restores
health and resets the consecutive-error counter; a non-empty verdict
strictly increases the block counter, increments the consecutive-error
counter, flags the account unhealthy, stamps the block time and appends
the warning while keeping at most 10 entries, evicting the oldest beyond
capacity. -/
def recordConcl (s : AccountHealth) (now : Nat) (issues : List String) : Prop :=
  (recordHealth s now issues).lastCheckAt = now
  ∧ (issues = [] →
      (recordHealth s now issues).isHealthy = true ∧
      (recordHealth s now issues).consecutiveErrors = 0)
  ∧ (issues ≠ [] →
      (recordHealth s now issues).totalBlocks = s.totalBlocks + 1 ∧
      s.totalBlocks < (recordHealth s now issues).totalBlocks ∧
      (recordHealth s now issues).consecutiveErrors = s.consecutiveErrors + 1 ∧
      s.consecutiveErrors ≤ (recordHealth s now issues).consecutiveErrors ∧
      (recordHealth s now issues).isHealthy = false ∧
      (recordHealth s now issues).blockDetectedAt = some now ∧
      (s.warnings.length ≤ 10 → (recordHealth s now issues).warnings.length ≤ 10) ∧
      (s.warnings.length < 10 →
        (recordHealth s now issues).warnings =
          s.warnings ++ [{ timestamp := now, issues := issues }]) ∧
      (s.warnings.length = 10 →
        (recordHealth s now issues).warnings =
          s.warnings.tail ++ [{ timestamp := now, issues := issues }]))

/-- A health store holding six retained warnings (counterexample data for
C9): reachable after six unhealthy classifications. -/
def h6 : AccountHealth :=
  { isHealthy := false, lastCheckAt := 6, blockDetectedAt := some 6
    consecutiveErrors := 6, totalBlocks := 6
    warnings :=
      [{ timestamp := 1, issues := ["spamDetected"] },
       { timestamp := 2, issues := ["spamDetected"] },
       { timestamp := 3, issues := ["spamDetected"] },
       { timestamp := 4, issues := ["spamDetected"] },
       { timestamp := 5, issues := ["spamDetected"] },
       { timestamp := 6, issues := ["spamDetected"] }] }

/-- Attempts whose body succeeds with a clean follow and whose teardown
succeeds (counterexample data for C8). -/
def attOkClean : Nat → AttemptBehavior :=
  fun _ =>
    { body := Except.ok
        { status := FStatus.followed, message := "Successfully followed user"
          healthIssues := [] }
      closeErr := none }

/-- The same attempts as `attOkClean` except that the success-path
`browser.close()` throws (counterexample data for C8). -/
def attOkCloseFail : Nat → AttemptBehavior :=
  fun _ =>
    { body := Except.ok
        { status := FStatus.followed, message := "Successfully followed user"
          healthIssues := [] }
      closeErr := some "BROWSER_CLOSE_FAILED" }

/- ======================================================================
   Helper lemmas
   ====================================================================== -/

theorem countAttempts_append (l1 l2 : List Event) :
    countAttempts (l1 ++ l2) = countAttempts l1 + countAttempts l2 := by
  simp [countAttempts, List.countP_append]

theorem countSleeps_append (l1 l2 : List Event) :
    countSleeps (l1 ++ l2) = countSleeps l1 + countSleeps l2 := by
  simp [countSleeps, List.countP_append]

theorem countCooldowns_append (l1 l2 : List Event) :
    countCooldowns (l1 ++ l2) = countCooldowns l1 + countCooldowns l2 := by
  simp [countCooldowns, List.countP_append]

theorem iter_counts (b : AttemptBehavior) (i : Nat) :
    countAttempts (iterEvents b i) = 1 ∧ countSleeps (iterEvents b i) = 0 ∧
    countCooldowns (iterEvents b i) = 0 ∧ Event.browserClose ∈ iterEvents b i := by
  obtain ⟨body, closeErr⟩ := b
  cases body <;> cases closeErr <;>
    simp [iterEvents, countAttempts, countSleeps, countCooldowns,
      List.countP_cons, List.countP_nil]

theorem followLoopAux_ok (h : AccountHealth) (att : Nat → AttemptBehavior)
    (n i : Nat) (r : FollowResult) (hi : attemptResult (att i) = Except.ok r) :
    followLoopAux h att (n + 1) i = (buildResponse h r, iterEvents (att i) i) := by
  simp [followLoopAux, hi]

theorem followLoopAux_fatal (h : AccountHealth) (att : Nat → AttemptBehavior)
    (n i : Nat)
    (hi : attemptResult (att i) = Except.error "2FA_CHALLENGE_DETECTED") :
    followLoopAux h att (n + 1) i = (twoFAResponse, iterEvents (att i) i) := by
  simp [followLoopAux, hi]

theorem countAttempts_cons_sleep (d : Nat) (l : List Event) :
    countAttempts (Event.sleep d :: l) = countAttempts l := by
  simp [countAttempts, List.countP_cons]

theorem countCooldowns_cons_sleep (d : Nat) (l : List Event) :
    countCooldowns (Event.sleep d :: l) = countCooldowns l := by
  simp [countCooldowns, List.countP_cons]

theorem countAttempts_cons_cooldown (l : List Event) :
    countAttempts (Event.cooldown :: l) = countAttempts l := by
  simp [countAttempts, List.countP_cons]

theorem buildResponse_status (h : AccountHealth) (r : FollowResult) :
    (buildResponse h r).status = r.status := by
  by_cases hc : r.healthIssues.isEmpty <;> simp [buildResponse, hc]

theorem followLoopAux_err_last (h : AccountHealth) (att : Nat → AttemptBehavior)
    (n i : Nat) (e : String) (hi : attemptResult (att i) = Except.error e)
    (hf : e ≠ "2FA_CHALLENGE_DETECTED") (hl : i = MAX_RETRIES - 1) :
    followLoopAux h att (n + 1) i = (exhaustedResponse h e, iterEvents (att i) i) := by
  subst hl
  simp [followLoopAux, hi, hf]

theorem followLoopAux_err_retry (h : AccountHealth) (att : Nat → AttemptBehavior)
    (n i : Nat) (e : String) (hi : attemptResult (att i) = Except.error e)
    (hf : e ≠ "2FA_CHALLENGE_DETECTED") (hl : i ≠ MAX_RETRIES - 1) :
    followLoopAux h att (n + 1) i =
      ((followLoopAux h att n (i + 1)).1,
        iterEvents (att i) i ++
          Event.sleep (getBackoffDelay i) :: (followLoopAux h att n (i + 1)).2) := by
  simp [followLoopAux, hi, hf, hl]

theorem loop_attempts_le (h : AccountHealth) (att : Nat → AttemptBehavior) :
    ∀ n i, countAttempts (followLoopAux h att n i).2 ≤ n := by
  intro n
  induction n with
  | zero => intro i; simp [followLoopAux, countAttempts]
  | succ n ih =>
    intro i
    cases hE : attemptResult (att i) with
    | ok r =>
      rw [followLoopAux_ok h att n i r hE]
      exact le_trans (le_of_eq (iter_counts (att i) i).1) (by omega)
    | error e =>
      by_cases hf : e = "2FA_CHALLENGE_DETECTED"
      · subst hf
        rw [followLoopAux_fatal h att n i hE]
        exact le_trans (le_of_eq (iter_counts (att i) i).1) (by omega)
      · by_cases hl : i = MAX_RETRIES - 1
        · rw [followLoopAux_err_last h att n i e hE hf hl]
          exact le_trans (le_of_eq (iter_counts (att i) i).1) (by omega)
        · rw [followLoopAux_err_retry h att n i e hE hf hl]
          have h1 : countAttempts
              (iterEvents (att i) i ++
                Event.sleep (getBackoffDelay i) :: (followLoopAux h att n (i + 1)).2) =
              1 + countAttempts (followLoopAux h att n (i + 1)).2 := by
            rw [countAttempts_append, (iter_counts (att i) i).1,
              countAttempts_cons_sleep]
          rw [h1]
          have := ih (i + 1)
          omega

theorem loop_no_cooldown (h : AccountHealth) (att : Nat → AttemptBehavior) :
    ∀ n i, countCooldowns (followLoopAux h att n i).2 = 0 := by
  intro n
  induction n with
  | zero => intro i; simp [followLoopAux, countCooldowns]
  | succ n ih =>
    intro i
    cases hE : attemptResult (att i) with
    | ok r =>
      rw [followLoopAux_ok h att n i r hE]
      exact (iter_counts (att i) i).2.2.1
    | error e =>
      by_cases hf : e = "2FA_CHALLENGE_DETECTED"
      · subst hf
        rw [followLoopAux_fatal h att n i hE]
        exact (iter_counts (att i) i).2.2.1
      · by_cases hl : i = MAX_RETRIES - 1
        · rw [followLoopAux_err_last h att n i e hE hf hl]
          exact (iter_counts (att i) i).2.2.1
        · rw [followLoopAux_err_retry h att n i e hE hf hl]
          rw [countCooldowns_append, (iter_counts (att i) i).2.2.1,
            countCooldowns_cons_sleep, ih (i + 1)]

/- ======================================================================
   Claim theorems
   ====================================================================== -/

/-- Claim C6: within one logical follow operation, cooldown enforcement is
invoked exactly once, as the very first event — before the first
orchestration attempt — and is never re-invoked before retry attempts of
the same operation (the loop trace contains no further cooldown event). -/
theorem c6_cooldown_once (h : AccountHealth) (att : Nat → AttemptBehavior) :
    countCooldowns (automateFollow h att).2 = 1 ∧
    (automateFollow h att).2.head? = some Event.cooldown := by
  constructor
  · show countCooldowns (Event.cooldown :: (followLoopAux h att MAX_RETRIES 0).2) = 1
    have hz := loop_no_cooldown h att MAX_RETRIES 0
    simp [countCooldowns, List.countP_cons] at hz ⊢
    exact hz
  · rfl

/-- Claim C1: the retry controller executes at most 3 orchestration
attempts; after each thrown non-fatal error it sleeps
`BASE_DELAY_MS × 2^attemptIndex` when attempts remain (so the two
possible backoff sleeps are `BASE_DELAY_MS × 1` and `BASE_DELAY_MS × 2`),
and when all 3 attempts throw it returns a failed response carrying the
last error message and the current account-health snapshot. -/
theorem c1_retry_exhaustion (h : AccountHealth) (att : Nat → AttemptBehavior)
    (e : Nat → String)
    (hthrow : ∀ i, i < MAX_RETRIES → attemptResult (att i) = Except.error (e i))
    (hnf : ∀ i, i < MAX_RETRIES → e i ≠ "2FA_CHALLENGE_DETECTED")
    (hne : e 2 ≠ "") :
    retryExhaustionConcl h att e ∧
    ∀ (h2 : AccountHealth) (att2 : Nat → AttemptBehavior),
      countAttempts (automateFollow h2 att2).2 ≤ MAX_RETRIES := by
  have s0 := followLoopAux_err_retry h att 2 0 (e 0)
    (hthrow 0 (by decide)) (hnf 0 (by decide)) (by decide)
  have s1 := followLoopAux_err_retry h att 1 1 (e 1)
    (hthrow 1 (by decide)) (hnf 1 (by decide)) (by decide)
  have s2 := followLoopAux_err_last h att 0 2 (e 2)
    (hthrow 2 (by decide)) (hnf 2 (by decide)) (by decide)
  have hchain : followLoopAux h att MAX_RETRIES 0 =
      (exhaustedResponse h (e 2),
        iterEvents (att 0) 0 ++
          Event.sleep (getBackoffDelay 0) ::
            (iterEvents (att 1) 1 ++
              Event.sleep (getBackoffDelay 1) :: iterEvents (att 2) 2)) := by
    show followLoopAux h att 3 0 = _
    rw [s0, s1, s2]
  have hauto : automateFollow h att =
      (exhaustedResponse h (e 2),
        Event.cooldown ::
          (iterEvents (att 0) 0 ++
            Event.sleep (getBackoffDelay 0) ::
              (iterEvents (att 1) 1 ++
                Event.sleep (getBackoffDelay 1) :: iterEvents (att 2) 2))) := by
    unfold automateFollow
    rw [hchain]
  refine ⟨⟨?_, ?_, ?_, ?_, ?_⟩, ?_⟩
  · rw [hauto]
    simp [exhaustedResponse, hne]
  · rw [hauto]
    have b0 : getBackoffDelay 0 = BASE_DELAY_MS * 1 := by
      simp [getBackoffDelay]
    have b1 : getBackoffDelay 1 = BASE_DELAY_MS * 2 := by
      simp [getBackoffDelay]
    rw [b0, b1]
  · rw [hauto]
    rw [countAttempts_cons_cooldown, countAttempts_append,
      countAttempts_cons_sleep, countAttempts_append, countAttempts_cons_sleep,
      (iter_counts (att 0) 0).1, (iter_counts (att 1) 1).1, (iter_counts (att 2) 2).1]
  · simp [getBackoffDelay]
  · simp [getBackoffDelay]
  · intro h2 att2
    show countAttempts (Event.cooldown :: (followLoopAux h2 att2 MAX_RETRIES 0).2) ≤ MAX_RETRIES
    rw [countAttempts_cons_cooldown]
    exact loop_attempts_le h2 att2 MAX_RETRIES 0

/-- Witness for C1: three attempts that each throw a generic timeout. -/
theorem c1_retry_exhaustion_witness :
    (∀ i, i < MAX_RETRIES → attemptResult (attThrow i) = Except.error (eThrow i)) ∧
    (∀ i, i < MAX_RETRIES → eThrow i ≠ "2FA_CHALLENGE_DETECTED") ∧
    eThrow 2 ≠ "" ∧
    (retryExhaustionConcl h0 attThrow eThrow ∧
      ∀ (h2 : AccountHealth) (att2 : Nat → AttemptBehavior),
        countAttempts (automateFollow h2 att2).2 ≤ MAX_RETRIES) :=
  ⟨fun _ _ => rfl, fun _ _ => by unfold eThrow; decide, by decide,
    c1_retry_exhaustion h0 attThrow eThrow (fun _ _ => rfl)
      (fun _ _ => by unfold eThrow; decide) (by decide)⟩

/-- Claim C2: whenever a two-factor challenge is detected during login
(the attempt throws `2FA_CHALLENGE_DETECTED`), the operation returns the
failed two-factor response immediately with its explanatory message: the
iteration emits no backoff sleep and consumes only that one attempt,
regardless of how many attempts of the retry budget remain. -/
theorem c2_two_factor_fatal (h : AccountHealth) (att : Nat → AttemptBehavior)
    (n i : Nat)
    (hf : attemptResult (att i) = Except.error "2FA_CHALLENGE_DETECTED") :
    followLoopAux h att (n + 1) i = (twoFAResponse, iterEvents (att i) i) ∧
    countSleeps (iterEvents (att i) i) = 0 ∧
    countAttempts (iterEvents (att i) i) = 1 ∧
    twoFAResponse.status = FStatus.failed ∧
    twoFAResponse.success = false ∧
    twoFAResponse.errorDetails =
      some "Two-factor authentication required - manual login needed" ∧
    (attemptResult (att 0) = Except.error "2FA_CHALLENGE_DETECTED" →
      automateFollow h att = (twoFAResponse, Event.cooldown :: iterEvents (att 0) 0)) := by
  refine ⟨followLoopAux_fatal h att n i hf, (iter_counts (att i) i).2.1,
    (iter_counts (att i) i).1, rfl, rfl, rfl, ?_⟩
  intro h00
  unfold automateFollow
  rw [show followLoopAux h att MAX_RETRIES 0 = (twoFAResponse, iterEvents (att 0) 0)
    from followLoopAux_fatal h att 2 0 h00]

/-- Witness for C2: the first attempt throws the two-factor error. -/
theorem c2_two_factor_fatal_witness :
    attemptResult (att2fa 0) = Except.error "2FA_CHALLENGE_DETECTED" ∧
    (followLoopAux h0 att2fa (2 + 1) 0 = (twoFAResponse, iterEvents (att2fa 0) 0) ∧
      countSleeps (iterEvents (att2fa 0) 0) = 0 ∧
      countAttempts (iterEvents (att2fa 0) 0) = 1 ∧
      twoFAResponse.status = FStatus.failed ∧
      twoFAResponse.success = false ∧
      twoFAResponse.errorDetails =
        some "Two-factor authentication required - manual login needed" ∧
      (attemptResult (att2fa 0) = Except.error "2FA_CHALLENGE_DETECTED" →
        automateFollow h0 att2fa =
          (twoFAResponse, Event.cooldown :: iterEvents (att2fa 0) 0))) :=
  ⟨rfl, c2_two_factor_fatal h0 att2fa 2 0 rfl⟩

/-- Claim C3: whenever an orchestration attempt determines the outcome
notfound, blocked, alreadyfollowed or privateorpending via `followUser`,
the retry loop returns that outcome immediately with the outcome itself
as the response status (not the generic `failed` status): the iteration
consumes exactly one attempt and emits no backoff sleep. -/
theorem c3_terminal_outcomes (h : AccountHealth) (att : Nat → AttemptBehavior)
    (n i : Nat) (p : PageObs)
    (hr : attemptResult (att i) = Except.ok (followUser p))
    (hs : (followUser p).status = FStatus.notfound ∨
      (followUser p).status = FStatus.blocked ∨
      (followUser p).status = FStatus.alreadyfollowed ∨
      (followUser p).status = FStatus.privateorpending) :
    followLoopAux h att (n + 1) i =
      (buildResponse h (followUser p), iterEvents (att i) i) ∧
    (buildResponse h (followUser p)).status = (followUser p).status ∧
    (buildResponse h (followUser p)).status ≠ FStatus.failed ∧
    countSleeps (iterEvents (att i) i) = 0 ∧
    countAttempts (iterEvents (att i) i) = 1 := by
  refine ⟨followLoopAux_ok h att n i (followUser p) hr,
    buildResponse_status h (followUser p), ?_,
    (iter_counts (att i) i).2.1, (iter_counts (att i) i).1⟩
  rw [buildResponse_status h (followUser p)]
  rcases hs with hs | hs | hs | hs <;> rw [hs] <;> decide

/-- Witness for C3: an attempt that determines a not-found profile. -/
theorem c3_terminal_outcomes_witness :
    attemptResult (attNF 0) = Except.ok (followUser pNotFound) ∧
    ((followUser pNotFound).status = FStatus.notfound ∨
      (followUser pNotFound).status = FStatus.blocked ∨
      (followUser pNotFound).status = FStatus.alreadyfollowed ∨
      (followUser pNotFound).status = FStatus.privateorpending) ∧
    (followLoopAux h0 attNF (2 + 1) 0 =
        (buildResponse h0 (followUser pNotFound), iterEvents (attNF 0) 0) ∧
      (buildResponse h0 (followUser pNotFound)).status = (followUser pNotFound).status ∧
      (buildResponse h0 (followUser pNotFound)).status ≠ FStatus.failed ∧
      countSleeps (iterEvents (attNF 0) 0) = 0 ∧
      countAttempts (iterEvents (attNF 0) 0) = 1) :=
  ⟨rfl, Or.inl (by decide),
    c3_terminal_outcomes h0 attNF 2 0 pNotFound rfl (Or.inl (by decide))⟩

/-- Claim C4 (bug exhibit): at session age exactly `SESSION_DURATION_MS`
(24 h), `isSessionValid` returns `true` and keeps the session, because
line 95 tests `sessionAge > SESSION_DURATION_MS` instead of `≥`; the
claim (and the doc comment of the source, valid iff less than 24 hours
old) requires `false` with the session cleared. -/
theorem c4_session_boundary :
    (isSessionValid (some { cookies := [], createdAt := 0, loginCount := 1 })
        SESSION_DURATION_MS).1 = true ∧
    (isSessionValid (some { cookies := [], createdAt := 0, loginCount := 1 })
        SESSION_DURATION_MS).2 =
      some { cookies := [], createdAt := 0, loginCount := 1 } ∧
    ¬ (SESSION_DURATION_MS - 0 < SESSION_DURATION_MS) :=
  ⟨by decide, by decide, by decide⟩

/-- Counterexample to claim C5 as stated: with the random draw
`Math.random() = 30000 / 30001` (a legal value below 1), the required
interval computed by line 151 equals `MAX_COOLDOWN_MS` exactly, so the
drawn interval does not lie in the half-open range with 60 s excluded;
a caller invoking `enforceCooldown` immediately after the previous
action is suspended for the full 60000 ms. -/
theorem c5_cooldown_counterexample :
    30000 < 30001 ∧
    requiredCooldown 30000 30001 = MAX_COOLDOWN_MS ∧
    ¬ requiredCooldown 30000 30001 < MAX_COOLDOWN_MS ∧
    (enforceCooldown { timestamp := 5, username := some "prev" } 5 "next"
        30000 30001).2 = 60000 :=
  ⟨by decide, by decide, by decide, by decide⟩

/-- Claim C5 as amended: identical to the claim except that the freshly
drawn required interval lies in the closed range
`[MIN_COOLDOWN_MS, MAX_COOLDOWN_MS]` (60 s included). -/
theorem c5_cooldown_amended (rec : CooldownRec) (now : Nat) (username : String)
    (num den : Nat) (hnum : num < den) (hts : rec.timestamp ≠ 0)
    (hnow : rec.timestamp ≤ now) :
    cooldownConcl rec now username num den := by
  have hconst : MAX_COOLDOWN_MS - MIN_COOLDOWN_MS + 1 = 30001 := by decide
  have hreq : requiredCooldown num den = num * 30001 / den + 30000 := by
    unfold requiredCooldown
    rw [hconst]
    rfl
  have h1 : num * 30001 < den * 30001 :=
    mul_lt_mul_of_pos_right hnum (by norm_num)
  have h2 : num * 30001 / den < 30001 := Nat.div_lt_of_lt_mul h1
  have hub : requiredCooldown num den ≤ MAX_COOLDOWN_MS := by
    rw [hreq]
    show _ ≤ 60000
    omega
  have hlb : MIN_COOLDOWN_MS ≤ requiredCooldown num den := by
    rw [hreq]
    exact Nat.le_add_left 30000 _
  have henf : enforceCooldown rec now username num den =
      if now - rec.timestamp < requiredCooldown num den then
        ({ timestamp := now + (requiredCooldown num den - (now - rec.timestamp))
           username := some username },
          requiredCooldown num den - (now - rec.timestamp))
      else ({ timestamp := now, username := some username }, 0) := by
    simp [enforceCooldown, hts]
  refine ⟨hlb, hub, ?_, ?_, ?_, ?_⟩
  · intro hlt
    rw [henf, if_pos hlt]
  · rw [henf]
    by_cases hlt : now - rec.timestamp < requiredCooldown num den
    · rw [if_pos hlt]
    · rw [if_neg hlt]
      simp
  · rw [henf]
    by_cases hlt : now - rec.timestamp < requiredCooldown num den
    · rw [if_pos hlt]
      show requiredCooldown num den ≤
        now + (requiredCooldown num den - (now - rec.timestamp)) - rec.timestamp
      omega
    · rw [if_neg hlt]
      show requiredCooldown num den ≤ now - rec.timestamp
      omega
  · intro m u
    simp [enforceCooldown]

/-- Witness for the amended C5: a second call 10 ms after the first with
draw `Math.random() = 0`. -/
theorem c5_cooldown_amended_witness :
    (0 : Nat) < 1 ∧ ({ timestamp := 5, username := some "a" } : CooldownRec).timestamp ≠ 0 ∧
    ({ timestamp := 5, username := some "a" } : CooldownRec).timestamp ≤ 10 ∧
    cooldownConcl { timestamp := 5, username := some "a" } 10 "b" 0 1 :=
  ⟨by decide, by decide, by decide,
    c5_cooldown_amended { timestamp := 5, username := some "a" } 10 "b" 0 1
      (by decide) (by decide) (by decide)⟩

/-- Claim C7: recording a non-empty health verdict strictly increases
`totalBlocks`, increments `consecutiveErrors`, flags the account
unhealthy, stamps the block time, and appends the warning while keeping
at most 10 entries (oldest evicted beyond capacity); an empty verdict
restores health and resets `consecutiveErrors` to 0; `lastCheckAt` is
updated on every call. -/
theorem c7_record_health (s : AccountHealth) (now : Nat) (issues : List String) :
    recordConcl s now issues := by
  cases issues with
  | nil =>
    refine ⟨rfl, fun _ => ⟨rfl, rfl⟩, fun hcon => absurd rfl hcon⟩
  | cons a t =>
    refine ⟨rfl, fun hcon => absurd hcon (by simp), fun _ => ?_⟩
    have hunfold : recordHealth s now (a :: t) =
        { isHealthy := false
          lastCheckAt := now
          blockDetectedAt := some now
          consecutiveErrors := s.consecutiveErrors + 1
          totalBlocks := s.totalBlocks + 1
          warnings :=
            if (s.warnings ++ [({ timestamp := now, issues := a :: t } : Warning)]).length > 10 then
              (s.warnings ++ [({ timestamp := now, issues := a :: t } : Warning)]).tail
            else s.warnings ++ [({ timestamp := now, issues := a :: t } : Warning)] } := by
      simp [recordHealth]
    rw [hunfold]
    refine ⟨rfl, Nat.lt_succ_self s.totalBlocks, rfl,
      Nat.le_succ s.consecutiveErrors, rfl, rfl, ?_, ?_, ?_⟩
    · intro hle
      by_cases hgt :
        (s.warnings ++ [({ timestamp := now, issues := a :: t } : Warning)]).length > 10
      · rw [if_pos hgt]
        simp only [List.length_tail, List.length_append, List.length_cons,
          List.length_nil]
        omega
      · rw [if_neg hgt]
        simp only [List.length_append, List.length_cons, List.length_nil] at hgt ⊢
        omega
    · intro hlt
      rw [if_neg (by simp only [List.length_append, List.length_cons,
        List.length_nil]; omega)]
    · intro hlen
      rw [if_pos (by simp only [List.length_append, List.length_cons,
        List.length_nil]; omega)]
      cases hw : s.warnings with
      | nil => rw [hw] at hlen; simp at hlen
      | cons b bs => rfl

/-- Witness for C7: recording a spam verdict, then an empty verdict, on a
fresh store. -/
theorem c7_record_health_witness :
    recordConcl h0 5 ["spamDetected"] ∧ recordConcl h0 7 [] :=
  ⟨c7_record_health h0 5 ["spamDetected"], c7_record_health h0 7 []⟩

/-- Counterexample to claim C8 as stated: two runs whose attempt bodies
are identical (every attempt succeeds with a clean follow) but whose
success-path teardown differs; with failing teardown the operation does
not return the success result — the close error becomes the error of
every attempt and the operation fails after the full retry budget, so
the attempt outcome is not independent of teardown success. -/
theorem c8_teardown_counterexample :
    (attOkClean 0).body = (attOkCloseFail 0).body ∧
    (automateFollow h0 attOkClean).1.success = true ∧
    (automateFollow h0 attOkClean).1.status = FStatus.followed ∧
    (automateFollow h0 attOkCloseFail).1.success = false ∧
    (automateFollow h0 attOkCloseFail).1.status = FStatus.failed ∧
    (automateFollow h0 attOkCloseFail).1.errorDetails = some "BROWSER_CLOSE_FAILED" ∧
    countAttempts (automateFollow h0 attOkCloseFail).2 = 3 :=
  ⟨rfl, by decide, by decide, by decide, by decide, by decide, by decide⟩

/-- Claim C8 as amended: every attempt invokes `browser.close()` on every
exit path, and on the thrown-error path a teardown failure is suppressed
(the body error is preserved unchanged); but on the success path a
teardown failure is raised as the attempt error, replacing the success
result, and only a successful teardown lets the success result stand. -/
theorem c8_teardown_amended :
    ∀ (b : AttemptBehavior) (i : Nat) (r : FollowResult) (e ce : String)
      (c : Option String),
      Event.browserClose ∈ iterEvents b i ∧
      attemptResult { body := Except.error e, closeErr := c } = Except.error e ∧
      attemptResult { body := Except.ok r, closeErr := some ce } = Except.error ce ∧
      attemptResult { body := Except.ok r, closeErr := none } = Except.ok r :=
  fun b i _ _ _ _ => ⟨(iter_counts b i).2.2.2, rfl, rfl, rfl⟩

/-- Counterexample to claim C9 as stated: with six retained warnings
(within the capacity of 10), the health/status payload reports only the
last five — `recentWarnings: accountHealth.warnings.slice(-5)` at
line 830 — so the query does not return the full retained warning
list. -/
theorem c9_snapshot_counterexample :
    h6.warnings.length = 6 ∧ h6.warnings.length ≤ 10 ∧
    (accountHealthHandler h6 none { timestamp := 0, username := none }
        10).1.accountHealth.recentWarnings ≠ h6.warnings ∧
    (accountHealthHandler h6 none { timestamp := 0, username := none }
        10).1.accountHealth.recentWarnings.length = 5 :=
  ⟨by decide, by decide, by decide, by decide⟩

/-- Claim C9 as amended: the health/status query projects the three
shared stores without mutating any of them — the stores after the call
equal the stores before — and its `accountHealth` section carries the
scalar health fields verbatim but only the last 5 of the up-to-10
retained warnings. -/
theorem c9_handler_amended (h : AccountHealth) (store : Option Session)
    (cool : CooldownRec) (now : Nat) :
    (accountHealthHandler h store cool now).2.1 = h ∧
    (accountHealthHandler h store cool now).2.2.1 = store ∧
    (accountHealthHandler h store cool now).2.2.2 = cool ∧
    (accountHealthHandler h store cool now).1.accountHealth.isHealthy = h.isHealthy ∧
    (accountHealthHandler h store cool now).1.accountHealth.lastCheckAt = h.lastCheckAt ∧
    (accountHealthHandler h store cool now).1.accountHealth.blockDetectedAt =
      h.blockDetectedAt ∧
    (accountHealthHandler h store cool now).1.accountHealth.consecutiveErrors =
      h.consecutiveErrors ∧
    (accountHealthHandler h store cool now).1.accountHealth.totalBlocks =
      h.totalBlocks ∧
    (accountHealthHandler h store cool now).1.accountHealth.recentWarnings =
      h.warnings.drop (h.warnings.length - 5) ∧
    (accountHealthHandler h store cool now).1.session.isActive = store.isSome ∧
    (accountHealthHandler h store cool now).1.cooldown.lastActionUsername =
      cool.username :=
  ⟨rfl, rfl, rfl, rfl, rfl, rfl, rfl, rfl, rfl, rfl, rfl⟩

/-- Claim C10: after credentials are submitted, the login attempt throws
the fatal `2FA_CHALLENGE_DETECTED` error if and only if the lowercased
page text contains one of the substrings "security code", "two-factor",
"authentication" or "verify"; in particular a page consisting of the
bare word "verify" makes the whole operation abort fatally after a
single attempt. -/
theorem c10_two_factor_predicate :
    (∀ (bodyText : String) (loggedIn : Bool),
      loginAfterSubmit bodyText loggedIn = Except.error "2FA_CHALLENGE_DETECTED" ↔
        (containsSub (lowerStr bodyText) "security code" = true ∨
          containsSub (lowerStr bodyText) "two-factor" = true ∨
          containsSub (lowerStr bodyText) "authentication" = true ∨
          containsSub (lowerStr bodyText) "verify" = true)) ∧
    is2FAPresent "verify" = true ∧
    (automateFollow h0 (fun _ => pageAttempt "verify")).1 = twoFAResponse ∧
    countAttempts (automateFollow h0 (fun _ => pageAttempt "verify")).2 = 1 := by
  refine ⟨?_, by decide, by decide, by decide⟩
  intro bodyText loggedIn
  by_cases hp : is2FAPresent bodyText = true
  · constructor
    · intro _
      have hd := hp
      simp only [is2FAPresent, Bool.or_eq_true] at hd
      tauto
    · intro _
      simp [loginAfterSubmit, hp]
  · have hp' : is2FAPresent bodyText = false := by
      cases hB : is2FAPresent bodyText
      · rfl
      · exact absurd hB hp
    constructor
    · intro heq
      exfalso
      unfold loginAfterSubmit at heq
      rw [hp'] at heq
      simp only [Bool.false_eq_true, if_false] at heq
      cases loggedIn with
      | true => simp at heq
      | false =>
        simp only [Bool.not_false, if_true] at heq
        exact (by decide : "LOGIN_FAILED" ≠ "2FA_CHALLENGE_DETECTED")
          (Except.error.inj heq)
    · intro hdisj
      exfalso
      have : is2FAPresent bodyText = true := by
        simp [is2FAPresent, Bool.or_eq_true]
        tauto
      rw [hp'] at this
      exact Bool.false_ne_true this

/-- Witness for C10: the predicate instantiated at the "verify" page. -/
theorem c10_two_factor_predicate_witness :
    (loginAfterSubmit "verify" true = Except.error "2FA_CHALLENGE_DETECTED" ↔
      (containsSub (lowerStr "verify") "security code" = true ∨
        containsSub (lowerStr "verify") "two-factor" = true ∨
        containsSub (lowerStr "verify") "authentication" = true ∨
        containsSub (lowerStr "verify") "verify" = true)) ∧
    is2FAPresent "verify" = true :=
  ⟨c10_two_factor_predicate.1 "verify" true, c10_two_factor_predicate.2.1⟩

end IG
